import Mathlib

/-!
Shallow embedding of the `VirtualS3FileSystem` class (src/unnamed/part_000,
the current revision of `src/index.ts`).

Modelling conventions:
* The mutable instance fields become the record `Vfs.VfsState`; every method
  becomes a function from a state (plus an environment describing the outside
  world: the S3 client's responses, stream outcomes, the random UUID, the
  statfs numbers) to a result, a new state and a trace of observable events
  (S3 requests, local file writes/removals, watcher open/close, directory
  creation/removal, filesystem free-space queries).
* JavaScript promises: a method's returned promise either fulfils
  (`Outcome.ok`), rejects (`Outcome.err`), or never settles (`Outcome.hangs`,
  which the source can reach, e.g. when a GET response has no `Body`).
* `throwError` is `await this.destroy(); throw new Error(...)`: it is modelled
  as a function producing the error value, the torn-down state and
  the teardown events.  Two call sites invoke `throwError` *without* awaiting
  it (`checkInit` and `convertS3UrlToLocation`): there the rejection never
  reaches the caller; the synchronous prefix of the floating call (closing the
  watchers) plus a `floatingError` trace event model what is observable, and
  the asynchronously scheduled remainder (directory removal, map clearing) is
  deliberately not folded into the sequential state since its interleaving
  with the continuing caller is scheduler-dependent.  Every state used in the
  theorems below reaches those call sites only with empty maps, where the
  remainder is a no-op on the state.
* JavaScript numbers for byte counts are modelled as `Nat`: the counter starts
  at `bsize * bavail ≥ 0` and every decrement is guarded by the quota check,
  so truncated subtraction never differs from the source's arithmetic.
* Property access on `undefined` (e.g. `this.fileKeyMap[key].bucket` after the
  map was cleared) raises a `TypeError`; modelled by `JsError.typeError`.
-/

namespace Vfs

/-- `S3Location` from the source: `{ bucket: string; key: string }`. -/
structure S3Location where
  bucket : String
  key : String
deriving DecidableEq, Repr

/-- The `S3Url | S3Location` union accepted by `init` and `createFutureFile`. -/
inductive S3Ref where
  | url (s : String)
  | loc (l : S3Location)
deriving DecidableEq, Repr

/-- One value of the source's `FilePathMap`: `{ path, mimeType?, modified,
watcher? }`.  A live `fs.FSWatcher` is represented by the path it watches. -/
structure LocalEntry where
  path : String
  mimeType : Option String
  modified : Bool
  watcher : Option String
deriving DecidableEq, Repr

/-- The private instance fields of `VirtualS3FileSystem`.  `systemTmp` and
`storageClass` are set by the constructor and never mutated. -/
structure VfsState where
  committedObjects : List S3Location
  fileKeyMap : List (String × S3Location)
  filePathMap : List (String × LocalEntry)
  tmpFolder : String
  tmpAvailableBytes : Nat
  systemTmp : String
  storageClass : String
deriving DecidableEq, Repr

/-- Observable interactions with the S3 client and the local filesystem. -/
inductive Event where
  | headReq (loc : S3Location)
  | getReq (loc : S3Location)
  | putReq (bucket key : String)
  | deleteReq (loc : S3Location)
  | mkdir (path : String)
  | rmDir (path : String)
  | rmFile (path : String)
  | fileWrite (path : String)
  | watchStart (path : String)
  | watchClose (path : String)
  | statfsQuery (path : String)
  | floatingError (msg : String)
deriving DecidableEq, Repr

/-- Errors a method's promise can reject with.  `vfsError` is an error built
by `throwError` (message already carrying the `[VirtualS3FileSystem] ` prefix,
with the optional `cause`); `typeError` is a runtime `TypeError` from property
access on `undefined`; `streamError` is a raw stream error re-raised without
wrapping (the transfer promise's bare `reject`). -/
inductive JsError where
  | vfsError (msg : String) (cause : Option String)
  | typeError (msg : String)
  | streamError (msg : String)
deriving DecidableEq, Repr

/-- How an async method's promise settles. -/
inductive Outcome (α : Type) where
  | ok (a : α)
  | err (e : JsError)
  | hangs
deriving DecidableEq, Repr

/-- Result of running one method: settled outcome, post-state, event trace. -/
structure Res (α : Type) where
  out : Outcome α
  st : VfsState
  events : List Event
deriving DecidableEq, Repr

/-- JS object property read: first binding for the key, if any. -/
def lookupKey {α : Type} (l : List (String × α)) (k : String) : Option α :=
  (l.find? (fun p => p.1 == k)).map (fun p => p.2)

/-- JS object property write: overwrite the (unique) existing binding in
place, keeping its position, or append a new binding at the end. -/
def setKey {α : Type} : List (String × α) → String → α → List (String × α)
  | [], k, v => [(k, v)]
  | (k', v') :: tl, k, v =>
    if k' == k then (k, v) :: tl else (k', v') :: setKey tl k v

/-- The state a freshly constructed instance is in: empty maps, `tmpFolder`
still the empty string (only `init` assigns it), zero byte budget. -/
def mkVfs (systemTmp storageClass : String) : VfsState :=
  { committedObjects := []
    fileKeyMap := []
    filePathMap := []
    tmpFolder := ""
    tmpAvailableBytes := 0
    systemTmp := systemTmp
    storageClass := storageClass }

/-- `convertS3UrlToLocation(s3Url)`.  `new URL(s3Url)` on an `s3://…` string
(a non-special scheme with an authority) yields `host` = the characters
between `s3://` and the first `/`, and `pathname` = the rest of the string
(starting with that `/`), or the empty string when there is no `/` after the
host.  The guard `if (!host || !pathname)` then calls `this.throwError(...)`
WITHOUT awaiting it, so even an invalid reference does not make the call
fail: the function always falls through to
`return { bucket: host, key: pathname.slice(1) }`.  The returned `Bool`
records whether the floating invalid-URL error was raised. -/
def convertS3UrlToLocation (s3Url : String) : S3Location × Bool :=
  let rest := s3Url.data.drop 5
  let hostL := rest.takeWhile (fun c => c != '/')
  let pathL := rest.dropWhile (fun c => c != '/')
  (⟨String.mk hostL, String.mk (pathL.drop 1)⟩, hostL.isEmpty || pathL.isEmpty)

/-- `path.parse(key).ext`: the extension of the basename of `key`, including
the dot, taken from the last `.`; empty when the basename has no dot or the
only dot is its first character. -/
def extOf (key : String) : String :=
  let base := ((key.data.reverse).takeWhile (fun c => c != '/')).reverse
  let tail := (base.reverse).takeWhile (fun c => c != '.')
  if tail.length = base.length then ""
  else if base.length = tail.length + 1 then ""
  else String.mk ('.' :: tail.reverse)

/-- The watch handles currently held in `filePathMap` (the paths they watch),
in map order. -/
def watchersOf (st : VfsState) : List String :=
  st.filePathMap.filterMap (fun p => p.2.watcher)

/-- `destroy(options)`: close every watcher held in `filePathMap`, recursively
remove `tmpFolder` (`force: true`, so a missing directory is tolerated), if
`deleteCommitted` issue a DELETE for every recorded committed object, then
clear `committedObjects`, `filePathMap` and `fileKeyMap`.  Note that
`tmpFolder` and `tmpAvailableBytes` are NOT reset. -/
def destroy (st : VfsState) (deleteCommitted : Bool) : VfsState × List Event :=
  ({ st with committedObjects := [], filePathMap := [], fileKeyMap := [] },
   (watchersOf st).map Event.watchClose
     ++ [Event.rmDir st.tmpFolder]
     ++ (if deleteCommitted then st.committedObjects.map Event.deleteReq
         else []))

/-- `throwError(errMsg, originalError?)`: `await this.destroy()` (no options,
so no rollback) and then throw `[VirtualS3FileSystem] errMsg` with the
original error attached as `cause`. -/
def throwErr (st : VfsState) (msg : String) (cause : Option String) :
    JsError × VfsState × List Event :=
  let d := destroy st false
  (JsError.vfsError ("[VirtualS3FileSystem] " ++ msg) cause, d.1, d.2)

/-- `checkInit()`: when `tmpFolder` is still empty it calls
`this.throwError(...)` WITHOUT awaiting or re-throwing, so the caller is not
interrupted.  Synchronously the floating `throwError` closes the current
watchers (the prefix of `destroy` before its first `await`); the rejection
itself never propagates and is recorded as a `floatingError` event.  The
asynchronously scheduled remainder of the floating teardown is not modelled
(see the header comment); all theorems below apply `checkInit` on an empty
`filePathMap` only, where that remainder does not change the state. -/
def checkInitEvents (st : VfsState) : List Event :=
  if st.tmpFolder = "" then
    (watchersOf st).map Event.watchClose
      ++ [Event.floatingError
            "[VirtualS3FileSystem] Not initialized; must call init() before using"]
  else []

/-- `getS3Url(key)`: reads `this.fileKeyMap[key].bucket`; when the key is
absent (e.g. after `destroy` cleared the map) this is a property read on
`undefined` and raises a `TypeError`. -/
def getS3Url (st : VfsState) (key : String) : Except JsError String :=
  match lookupKey st.fileKeyMap key with
  | none => .error (JsError.typeError
      "Cannot read properties of undefined (reading \x27bucket\x27)")
  | some loc => .ok ("s3://" ++ loc.bucket ++ "/" ++ loc.key)

/-- The relevant parts of a `HeadObjectCommand` response. -/
structure HeadResponse where
  contentLength : Option Nat
  contentType : Option String
deriving DecidableEq, Repr

/-- Environment for one `getPath` call: the random UUID used for the staged
file name, the HEAD outcome (`.error` carries the upstream error's `name`),
the GET outcome (`.ok` carries the response's `ContentType`), whether the GET
response has a `Body`, and the outcome of piping that body to the local file
(`.error` carries the raw stream error's message). -/
structure GetPathEnv where
  uuid : String
  head : Except String HeadResponse
  get : Except String (Option String)
  bodyPresent : Bool
  transfer : Except String Unit
deriving Repr

/-- `file(key).getPath()`, translated clause by clause from the source:
1. `checkInit()` (floating failure only — see `checkInitEvents`).
2. `if (!this.fileKeyMap[key])` → awaited `throwError` (UnknownKey).
3. `if (!this.filePathMap[key])` is false → return the cached `path`
   immediately (no existence check on the backing file, no S3 traffic).
4. Otherwise compute `fullPath` from the tmp folder, a random UUID and the
   remote key's extension; HEAD the object; `sizeInBytes = ContentLength || 0`;
   quota check `sizeInBytes > tmpAvailableBytes`; GET the object — all inside
   one `try`.  A HEAD/GET failure is caught and re-raised via `throwError`
   with the `s3://` URL in the message.  The quota failure's own awaited
   `throwError` FIRST destroys the session, so when the surrounding `catch`
   rebuilds the message it calls `getS3Url` on the cleared `fileKeyMap` and
   the caller receives that `TypeError` instead of the quota error.
5. `createWriteStream(fullPath)` (local file creation), pipe the body
   (if `response.Body` is falsy the transfer promise never settles); a stream
   error is a bare `reject` — NO teardown, state unchanged.
6. Decrement `tmpAvailableBytes` by `sizeInBytes`, install the `LocalEntry`
   (`modified = false`), attach the watcher, return `fullPath`. -/
def getPath (st : VfsState) (env : GetPathEnv) (key : String) : Res String :=
  let initEvs := checkInitEvents st
  match lookupKey st.fileKeyMap key with
  | none =>
      let t := throwErr st ("No cache key found for \"" ++ key ++ "\"") none
      ⟨.err t.1, t.2.1, initEvs ++ t.2.2⟩
  | some loc =>
    match lookupKey st.filePathMap key with
    | some entry => ⟨.ok entry.path, st, initEvs⟩
    | none =>
      let fullPath := st.tmpFolder ++ "/" ++ env.uuid ++ extOf loc.key
      match env.head with
      | .error name =>
        match getS3Url st key with
        | .ok url =>
          let t := throwErr st (name ++ " error while getting " ++ url)
            (some name)
          ⟨.err t.1, t.2.1, initEvs ++ [Event.headReq loc] ++ t.2.2⟩
        | .error te => ⟨.err te, st, initEvs ++ [Event.headReq loc]⟩
      | .ok resp =>
        let sizeInBytes := resp.contentLength.getD 0
        if sizeInBytes > st.tmpAvailableBytes then
          let t := throwErr st
            ("Not enough space to cache file \"[object Object]\" ("
              ++ toString sizeInBytes ++ " bytes needed, "
              ++ toString st.tmpAvailableBytes ++ " bytes available)") none
          match getS3Url t.2.1 key with
          | .error te =>
            ⟨.err te, t.2.1, initEvs ++ [Event.headReq loc] ++ t.2.2⟩
          | .ok url =>
            let t2 := throwErr t.2.1 ("Error error while getting " ++ url)
              none
            ⟨.err t2.1, t2.2.1,
              initEvs ++ [Event.headReq loc] ++ t.2.2 ++ t2.2.2⟩
        else
          match env.get with
          | .error name =>
            match getS3Url st key with
            | .ok url =>
              let t := throwErr st (name ++ " error while getting " ++ url)
                (some name)
              ⟨.err t.1, t.2.1,
                initEvs ++ [Event.headReq loc, Event.getReq loc] ++ t.2.2⟩
            | .error te =>
              ⟨.err te, st, initEvs ++ [Event.headReq loc, Event.getReq loc]⟩
          | .ok contentType =>
            let evs0 := initEvs
              ++ [Event.headReq loc, Event.getReq loc, Event.fileWrite fullPath]
            if env.bodyPresent then
              match env.transfer with
              | .error m => ⟨.err (JsError.streamError m), st, evs0⟩
              | .ok _ =>
                let st' := { st with
                  tmpAvailableBytes := st.tmpAvailableBytes - sizeInBytes
                  filePathMap := setKey st.filePathMap key
                    { path := fullPath, mimeType := contentType,
                      modified := false, watcher := some fullPath } }
                ⟨.ok fullPath, st', evs0 ++ [Event.watchStart fullPath]⟩
            else ⟨.hangs, st, evs0⟩

/-- `CommitOptions`; the source's default parameter is
`{ bucket: '', key: '' }` with no `mimeType`. -/
structure CommitOptions where
  bucket : String
  key : String
  mimeType : Option String
deriving DecidableEq, Repr

/-- The default `options` value of `commit`. -/
def defaultCommitOptions : CommitOptions := ⟨"", "", none⟩

/-- How `fs.createReadStream(path)` behaves: `enoent` when the backing file
does not exist (`sysMsg` is the OS error's message, used by the second
`throwError` of the handler), `errored` for any other read error, `ready`
when the file opened successfully. -/
inductive ReadStream where
  | enoent (sysMsg : String)
  | errored (msg : String)
  | ready
deriving DecidableEq, Repr

/-- Environment for one `commit` call: the read-stream behaviour and the
outcome of the `PutObjectCommand` (`.error` carries the error's `name`). -/
structure CommitEnv where
  stream : ReadStream
  put : Except String Unit
deriving Repr

/-- JS `a || b` on strings: empty string is falsy. -/
def jsOrS (a b : String) : String := if a = "" then b else a

/-- JS `a || b` on optional strings: `undefined` and `''` are falsy. -/
def jsOrOpt (a b : Option String) : Option String :=
  match a with
  | none => b
  | some s => if s = "" then b else some s

/-- `file(key).commit(options?)`:
1. `checkInit()` (floating failure only).
2. `if (!this.filePathMap[key])` → awaited `throwError`
   (`Cannot commit nonexistent file "key"`), rejecting before any stream or
   S3 traffic.
3. Open a read stream on the entry's path.  On an `ENOENT` stream error the
   handler calls `throwError` with the `Local file … not found` message and —
   the branch is missing a `return` — a second `throwError(err.message)`; the
   first rejection wins, the second teardown is an idempotent repeat on the
   already-cleared state.  Any other stream error is wrapped by one
   `throwError`.
4. On `ready`, the handler logs via `getS3Url` (a missing `fileKeyMap` entry
   would raise a `TypeError` inside the event handler, leaving the commit
   promise forever pending) and PUTs the stream to
   `options.bucket || map.bucket` / `options.key || map.key`.  A PUT failure
   is wrapped by `throwError`.
5. On stream close, push the destination onto `committedObjects`, set the
   entry's `modified` to `false`, and fulfil. -/
def commit (st : VfsState) (env : CommitEnv) (key : String)
    (options : CommitOptions) : Res Unit :=
  let initEvs := checkInitEvents st
  match lookupKey st.filePathMap key with
  | none =>
    let t := throwErr st ("Cannot commit nonexistent file \"" ++ key ++ "\"")
      none
    ⟨.err t.1, t.2.1, initEvs ++ t.2.2⟩
  | some entry =>
    match env.stream with
    | .enoent sysMsg =>
      let t1 := throwErr st
        ("Local file \"" ++ entry.path ++ "\" not found") (some sysMsg)
      let t2 := throwErr t1.2.1 sysMsg (some sysMsg)
      ⟨.err t1.1, t2.2.1, initEvs ++ t1.2.2 ++ t2.2.2⟩
    | .errored m =>
      let t := throwErr st m (some m)
      ⟨.err t.1, t.2.1, initEvs ++ t.2.2⟩
    | .ready =>
      match lookupKey st.fileKeyMap key with
      | none => ⟨.hangs, st, initEvs⟩
      | some loc =>
        let destBucket := jsOrS options.bucket loc.bucket
        let destKey := jsOrS options.key loc.key
        let evs0 := initEvs ++ [Event.putReq destBucket destKey]
        match env.put with
        | .error name =>
          let t := throwErr st
            (name ++ " error while saving " ++ key ++ " to s3://"
              ++ loc.bucket ++ "/" ++ loc.key) (some name)
          ⟨.err t.1, t.2.1, evs0 ++ t.2.2⟩
        | .ok _ =>
          ⟨.ok (),
            { st with
              committedObjects := st.committedObjects ++ [⟨destBucket, destKey⟩]
              filePathMap := setKey st.filePathMap key
                { entry with modified := false } },
            evs0⟩

/-- `file(key).delete()`: `this.filePathMap[key].watcher?.close()` — a
`TypeError` when the entry is absent — then `rm(path, { force: true })`.
The `filePathMap` entry and the `fileKeyMap` entry are left in place. -/
def delete (st : VfsState) (key : String) : Res Unit :=
  match lookupKey st.filePathMap key with
  | none =>
    ⟨.err (JsError.typeError
        "Cannot read properties of undefined (reading \x27watcher\x27)"),
      st, []⟩
  | some entry =>
    ⟨.ok (), st,
      (entry.watcher.map Event.watchClose).toList ++ [Event.rmFile entry.path]⟩

/-- Environment for `init`: the random UUID of the new staging directory and
the `statfs(systemTmp)` numbers. -/
structure InitEnv where
  uuid : String
  bsize : Nat
  bavail : Nat
deriving DecidableEq, Repr

/-- `init(fileKeyMap)`: reassign `fileKeyMap` and `filePathMap` to fresh empty
objects, convert every entry (strings through `convertS3UrlToLocation`, whose
invalid-URL error is only a floating rejection), create the new uniquely named
staging directory, query `statfs` on the temporary root and set
`tmpAvailableBytes = bsize * bavail`.  `committedObjects` is NOT touched, and
the watchers held by the previous `filePathMap` are dropped without being
closed. -/
def init (st : VfsState) (env : InitEnv) (m : List (String × S3Ref)) :
    VfsState × List Event :=
  let fkm := m.map (fun p => (p.1,
    match p.2 with
    | .url s => (convertS3UrlToLocation s).1
    | .loc l => l))
  let floatEvs := m.filterMap (fun p =>
    match p.2 with
    | .url s =>
      if (convertS3UrlToLocation s).2 then
        some (Event.floatingError ("[VirtualS3FileSystem] Invalid S3 URL: " ++ s))
      else none
    | .loc _ => none)
  let tmp := st.systemTmp ++ "/vs3fs-" ++ env.uuid
  ({ st with
      fileKeyMap := fkm
      filePathMap := []
      tmpFolder := tmp
      tmpAvailableBytes := env.bsize * env.bavail },
   floatEvs ++ [Event.mkdir tmp, Event.statfsQuery st.systemTmp])

/-- `createFutureFile(newKey, s3Object, mimeType?)`: `checkInit()` (floating
failure only), resolve the reference, precompute the staged path from a fresh
UUID and the remote key's extension, install the Registry entry and a
`LocalEntry` with `modified = true` and no watcher, and return the handle
(modelled by the key itself). -/
def createFutureFile (st : VfsState) (uuid : String) (newKey : String)
    (s3Object : S3Ref) (mimeType : Option String) : Res String :=
  let initEvs := checkInitEvents st
  let conv : S3Location × Bool :=
    match s3Object with
    | .url s => convertS3UrlToLocation s
    | .loc l => (l, false)
  let floatEvs :=
    match s3Object with
    | .url s =>
      if (convertS3UrlToLocation s).2 then
        [Event.floatingError ("[VirtualS3FileSystem] Invalid S3 URL: " ++ s)]
      else []
    | .loc _ => []
  let fullPath := st.tmpFolder ++ "/" ++ uuid ++ extOf conv.1.key
  ⟨.ok newKey,
    { st with
        fileKeyMap := setKey st.fileKeyMap newKey conv.1
        filePathMap := setKey st.filePathMap newKey
          { path := fullPath, mimeType := mimeType,
            modified := true, watcher := none } },
    initEvs ++ floatEvs⟩

/-- Sequential core of `commitChanged`: walk the snapshot of the keys, commit
every entry whose `modified` flag is set, stop at the first failure. -/
def commitChangedGo (envs : String → CommitEnv) :
    List String → VfsState → List Event → Res Unit
  | [], st, evs => ⟨.ok (), st, evs⟩
  | k :: ks, st, evs =>
    match lookupKey st.filePathMap k with
    | some e =>
      if e.modified then
        match commit st (envs k) k defaultCommitOptions with
        | ⟨.ok _, st', evs'⟩ => commitChangedGo envs ks st' (evs ++ evs')
        | ⟨.err er, st', evs'⟩ => ⟨.err er, st', evs ++ evs'⟩
        | ⟨.hangs, st', evs'⟩ => ⟨.hangs, st', evs ++ evs'⟩
      else commitChangedGo envs ks st evs
    | none => commitChangedGo envs ks st evs

/-- `commitChanged()`: `checkInit()` (floating failure only), then
`Promise.all` over the keys of `filePathMap`, committing each entry whose
`modified` flag is set with the default options.  `Promise.all`'s concurrent
interleaving is modelled as a sequential left-to-right sweep stopping at the
first failure; the theorems below only exercise it on states where at most
one commit runs, where the two coincide. -/
def commitChanged (st : VfsState) (envs : String → CommitEnv) : Res Unit :=
  commitChangedGo envs (st.filePathMap.map Prod.fst) st (checkInitEvents st)

/-- Full teardown relative to the pre-state `st0`: the three maps of the
result state are cleared, the staging directory was removed, and every watch
handle `st0` held was closed — what §4.7 requires before an error surfaces. -/
def tornDown (st0 : VfsState) {α : Type} (r : Res α) : Prop :=
  r.st.fileKeyMap = [] ∧ r.st.filePathMap = [] ∧ r.st.committedObjects = []
    ∧ Event.rmDir st0.tmpFolder ∈ r.events
    ∧ ∀ w ∈ watchersOf st0, Event.watchClose w ∈ r.events

/-- Concrete fixture: an initialized session with one registered key `a`
mapped to `s3://bkt/a.txt`, nothing downloaded yet, 5 bytes of budget. -/
def stA : VfsState :=
  { committedObjects := []
    fileKeyMap := [("a", ⟨"bkt", "a.txt"⟩)]
    filePathMap := []
    tmpFolder := "/tmp/vs3fs-u0"
    tmpAvailableBytes := 5
    systemTmp := "/tmp"
    storageClass := "STANDARD" }

/-- Environment: HEAD reports 3 bytes, GET and the transfer succeed. -/
def envOk3 : GetPathEnv :=
  ⟨"u1", .ok ⟨some 3, some "text/plain"⟩, .ok (some "text/plain"), true, .ok ()⟩

/-- Environment: HEAD reports 10 bytes (more than `stA`'s 5-byte budget). -/
def envSize10 : GetPathEnv :=
  ⟨"u1", .ok ⟨some 10, some "text/plain"⟩, .ok (some "text/plain"), true,
    .ok ()⟩

/-- Environment: the HEAD request itself fails upstream. -/
def envHeadFail : GetPathEnv :=
  ⟨"u1", .error "NetworkingError", .ok (some "text/plain"), true, .ok ()⟩

/-- Environment: HEAD/GET succeed but piping the body to disk fails. -/
def envTransferFail : GetPathEnv :=
  ⟨"u1", .ok ⟨some 3, some "text/plain"⟩, .ok (some "text/plain"), true,
    .error "boom"⟩

/-- Environment: HEAD response carries no `ContentLength` at all. -/
def envNoLen : GetPathEnv :=
  ⟨"u1", .ok ⟨none, some "text/plain"⟩, .ok (some "text/plain"), true, .ok ()⟩

/-- Environment: HEAD reports 9 bytes, everything succeeds. -/
def env9 : GetPathEnv :=
  ⟨"u1", .ok ⟨some 9, some "text/plain"⟩, .ok (some "text/plain"), true,
    .ok ()⟩

/-- `stA` after a successful 3-byte download of key `a`. -/
def stM : VfsState := (getPath stA envOk3 "a").st

/-- `stA` with the scenario budget of §8: 1,000,000 bytes. -/
def stB : VfsState := { stA with tmpAvailableBytes := 1000000 }

/-- `stA` with a zero-byte budget (for the quota-ignores-budget witness). -/
def stZ : VfsState := { stA with tmpAvailableBytes := 0 }

/-- A freshly constructed instance on which `init` was never called. -/
def freshVfs : VfsState := mkVfs "/tmp" "STANDARD"

/-- A session carrying a commit record and a stale map from a prior `init`. -/
def stC6 : VfsState := { stA with committedObjects := [⟨"b", "k"⟩] }

end Vfs


open Vfs

/-- Over a `setKey` update the updated key reads back the new value. -/
theorem Vfs.lookupKey_setKey_self {α : Type} (l : List (String × α))
    (k : String) (v : α) : lookupKey (setKey l k v) k = some v := by
  induction l with
  | nil => simp [setKey, lookupKey, List.find?]
  | cons hd tl ih =>
    obtain ⟨k', v'⟩ := hd
    by_cases hk : k' = k
    · simp [setKey, lookupKey, List.find?, hk]
    · simpa [setKey, lookupKey, List.find?, hk] using ih

/-- C1 (code bug): with key `a` registered, a 5-byte budget and a remote
object whose HEAD reports 10 bytes, `getPath("a")` performs no local file
write — but the error the caller receives is NOT the quota error carrying the
required/available byte counts: the quota `throwError` first destroys the
session (clearing `fileKeyMap`) and its error is then caught by `getPath`'s
own `catch`, whose message interpolation calls `getS3Url` on the cleared map
and raises a `TypeError` that is what actually rejects the promise. -/
theorem c1_quota_error_swallowed_into_typeerror :
    getPath stA envSize10 "a"
      = ⟨.err (.typeError
            "Cannot read properties of undefined (reading \x27bucket\x27)"),
          { committedObjects := [], fileKeyMap := [], filePathMap := [],
            tmpFolder := "/tmp/vs3fs-u0", tmpAvailableBytes := 5,
            systemTmp := "/tmp", storageClass := "STANDARD" },
          [Event.headReq ⟨"bkt", "a.txt"⟩, Event.rmDir "/tmp/vs3fs-u0"]⟩
    ∧ (∀ p, Event.fileWrite p ∉ (getPath stA envSize10 "a").events) := by
  refine ⟨by decide, ?_⟩
  intro p
  show Event.fileWrite p ∉ (getPath stA envSize10 "a").events
  have h : (getPath stA envSize10 "a").events
      = [Event.headReq ⟨"bkt", "a.txt"⟩, Event.rmDir "/tmp/vs3fs-u0"] := by
    decide
  rw [h]
  simp

/-- C3 counterexample: a failure while streaming the object body to disk
(`envTransferFail`) rejects `getPath` with the raw stream error while the
session state is left fully populated — no watcher close, no staging-dir
removal, no map clearing happens before (or after) the error is raised, so
the claim that every core-operation failure is preceded by full teardown is
false. -/
theorem c3_counterexample_transfer_failure_no_teardown :
    (getPath stA envTransferFail "a").out = .err (.streamError "boom")
    ∧ (getPath stA envTransferFail "a").st = stA
    ∧ Event.rmDir "/tmp/vs3fs-u0" ∉ (getPath stA envTransferFail "a").events := by
  decide

/-- C5 counterexample: `resolve("s3://bucket-x/")` does NOT fail: the WHATWG
pathname of that URL is `"/"`, which is non-empty, so the invalid-location
guard does not even fire; the call returns `{bucket: "bucket-x", key: ""}`
(flag `false` = no invalid-URL error was raised at all). -/
theorem c5_counterexample_trailing_slash_accepted :
    convertS3UrlToLocation "s3://bucket-x/" = (⟨"bucket-x", ""⟩, false) := by
  decide

/-- C6 counterexample: a second `init` does not fully replace all prior
session state — the `committedObjects` list recorded by the previous session
survives `init` unchanged (it is cleared only by `destroy`). -/
theorem c6_counterexample_committed_objects_survive_init :
    (init stC6 ⟨"u2", 4096, 1000⟩ [("x", .url "s3://bx/ox.txt")]).1.committedObjects
      = [⟨"b", "k"⟩]
    ∧ ([⟨"b", "k"⟩] : List S3Location) ≠ [] := by
  decide

/-- C7 (code bug): after materializing key `a` (state `stM`) and calling
`delete`, the watcher is closed and the backing file removed while both the
Registry entry and the LocalEntry metadata survive — but a subsequent
`getPath` does NOT treat the key as not-yet-downloaded: because the fast path
tests only `filePathMap` membership (never the backing file), it returns the
stale path of the just-deleted file with no HEAD/GET issued, contradicting
the claim (and `getPath`'s own doc comment, "If the file doesn't exist
locally, it will be downloaded from S3"). -/
theorem c7_delete_then_getpath_returns_stale_path :
    delete stM "a"
      = ⟨.ok (), stM, [Event.watchClose "/tmp/vs3fs-u0/u1.txt",
                       Event.rmFile "/tmp/vs3fs-u0/u1.txt"]⟩
    ∧ lookupKey (delete stM "a").st.fileKeyMap "a" = some ⟨"bkt", "a.txt"⟩
    ∧ lookupKey (delete stM "a").st.filePathMap "a"
        = some ⟨"/tmp/vs3fs-u0/u1.txt", some "text/plain", false,
                some "/tmp/vs3fs-u0/u1.txt"⟩
    ∧ getPath (delete stM "a").st envHeadFail "a"
        = ⟨.ok "/tmp/vs3fs-u0/u1.txt", stM, []⟩ := by
  decide

/-- C8 (code bug): `checkInit` calls `throwError` without awaiting or
re-throwing, so the `NotInitialized` rejection never reaches the caller and
no operation fails with it: on a never-initialized instance `commitChanged`
fulfils successfully, `createFutureFile` succeeds and installs its entries,
and `getPath`/`commit` fail only later with the unknown-key /
nonexistent-file errors instead of `NotInitialized`. -/
theorem c8_checkinit_never_fails_the_operation :
    (commitChanged freshVfs (fun _ => ⟨.ready, .ok ()⟩)).out = .ok ()
    ∧ (createFutureFile freshVfs "u9" "k" (.url "s3://b/o.txt") none).out
        = .ok "k"
    ∧ lookupKey (createFutureFile freshVfs "u9" "k"
        (.url "s3://b/o.txt") none).st.fileKeyMap "k" = some ⟨"b", "o.txt"⟩
    ∧ (getPath freshVfs envOk3 "k").out
        = .err (.vfsError "[VirtualS3FileSystem] No cache key found for \"k\"" none)
    ∧ (commit freshVfs ⟨.ready, .ok ()⟩ "k" defaultCommitOptions).out
        = .err (.vfsError
            "[VirtualS3FileSystem] Cannot commit nonexistent file \"k\"" none) := by
  decide

/-- `takeWhile (· != sep)` over a list that reaches `sep` returns the prefix
before it. -/
theorem Vfs.takeWhile_bne_append (sep : Char) (pre rest : List Char)
    (h : ∀ c ∈ pre, c ≠ sep) :
    (pre ++ sep :: rest).takeWhile (fun c => c != sep) = pre := by
  induction pre with
  | nil => simp [List.takeWhile]
  | cons a tl ih =>
    have ha : a ≠ sep := h a (by simp)
    have ih' := ih (fun c hc => h c (by simp [hc]))
    simp [List.takeWhile_cons, ha, ih']

/-- `dropWhile (· != sep)` over a list that reaches `sep` returns the suffix
from `sep` on. -/
theorem Vfs.dropWhile_bne_append (sep : Char) (pre rest : List Char)
    (h : ∀ c ∈ pre, c ≠ sep) :
    (pre ++ sep :: rest).dropWhile (fun c => c != sep) = sep :: rest := by
  induction pre with
  | nil => simp [List.dropWhile]
  | cons a tl ih =>
    have ha : a ≠ sep := h a (by simp)
    have ih' := ih (fun c hc => h c (by simp [hc]))
    simp [List.dropWhile_cons, ha, ih']

/-- A `takeWhile` that never meets `sep` returns the whole list. -/
theorem Vfs.takeWhile_bne_all (sep : Char) (l : List Char)
    (h : ∀ c ∈ l, c ≠ sep) :
    l.takeWhile (fun c => c != sep) = l := by
  induction l with
  | nil => simp
  | cons a tl ih =>
    have ha : a ≠ sep := h a (by simp)
    have ih' := ih (fun c hc => h c (by simp [hc]))
    simp [List.takeWhile_cons, ha, ih']

/-- A `dropWhile` that never meets `sep` returns the empty list. -/
theorem Vfs.dropWhile_bne_all (sep : Char) (l : List Char)
    (h : ∀ c ∈ l, c ≠ sep) :
    l.dropWhile (fun c => c != sep) = [] := by
  induction l with
  | nil => simp
  | cons a tl ih =>
    have ha : a ≠ sep := h a (by simp)
    have ih' := ih (fun c hc => h c (by simp [hc]))
    simp [List.dropWhile_cons, ha, ih']

/-- The character data of an `s3://host/path`-shaped concatenation. -/
theorem Vfs.s3url_data (host p : String) :
    ("s3://" ++ host ++ "/" ++ p).data
      = 's' :: '3' :: ':' :: '/' :: '/' :: (host.data ++ '/' :: p.data) := by
  simp [String.data_append]

/-- The character data of an `s3://host`-shaped concatenation. -/
theorem Vfs.s3url_data_nopath (host : String) :
    ("s3://" ++ host).data
      = 's' :: '3' :: ':' :: '/' :: '/' :: host.data := by
  simp [String.data_append]

/-- Dropping five elements from a five-cons list. -/
theorem Vfs.drop5_cons (a b c d e : Char) (l : List Char) :
    List.drop 5 (a :: b :: c :: d :: e :: l) = l := rfl

/-- The character data of an `s3:///path`-shaped concatenation. -/
theorem Vfs.s3url_data_emptyhost (p : String) :
    ("s3:///" ++ p).data
      = 's' :: '3' :: ':' :: '/' :: '/' :: '/' :: p.data := by
  simp [String.data_append]

/-- C5 (amended): `resolve` maps `scheme://host/path` to `{bucket: host,
key: path}` (leading separator stripped) — in particular
`"s3://bucket-x/a/b.txt"` yields `{bucket-x, a/b.txt}`.  But
`"s3://bucket-x/"` does NOT fail: its pathname is the non-empty string `"/"`,
so the invalid-location guard passes and the call yields
`{bucket: "bucket-x", key: ""}`.  The invalid-location condition is flagged
only when host or pathname is genuinely empty (no `/` after the host, or
nothing between `//` and `/`), and even then it is raised on an un-awaited
promise: the call itself still returns the parsed location instead of
failing. -/
theorem c5_resolve_amended (host p : String)
    (hsep : ∀ c ∈ host.data, c ≠ '/') (hhost : host ≠ "") :
    convertS3UrlToLocation "s3://bucket-x/a/b.txt"
        = (⟨"bucket-x", "a/b.txt"⟩, false)
    ∧ convertS3UrlToLocation "s3://bucket-x/" = (⟨"bucket-x", ""⟩, false)
    ∧ convertS3UrlToLocation ("s3://" ++ host ++ "/" ++ p) = (⟨host, p⟩, false)
    ∧ convertS3UrlToLocation ("s3://" ++ host) = (⟨host, ""⟩, true)
    ∧ (∀ q : String, convertS3UrlToLocation ("s3:///" ++ q) = (⟨"", q⟩, true)) := by
  refine ⟨by decide, by decide, ?_, ?_, ?_⟩
  · obtain ⟨l⟩ := host
    simp only [convertS3UrlToLocation, Vfs.s3url_data, Vfs.drop5_cons]
    rw [Vfs.takeWhile_bne_append '/' l p.data hsep,
        Vfs.dropWhile_bne_append '/' l p.data hsep]
    cases l with
    | nil => exact absurd rfl hhost
    | cons a t => simp [List.isEmpty]
  · obtain ⟨l⟩ := host
    simp only [convertS3UrlToLocation, Vfs.s3url_data_nopath, Vfs.drop5_cons]
    rw [Vfs.takeWhile_bne_all '/' l hsep, Vfs.dropWhile_bne_all '/' l hsep]
    simp [List.isEmpty]
  · intro q
    simp only [convertS3UrlToLocation, Vfs.s3url_data_emptyhost, Vfs.drop5_cons]
    simp [List.takeWhile, List.dropWhile, List.isEmpty]

/-- C5 witness: the amended theorem applied at `host = "bucket-x"`,
`p = "a/b.txt"`. -/
theorem c5_resolve_amended_witness :
    convertS3UrlToLocation ("s3://" ++ "bucket-x" ++ "/" ++ "a/b.txt")
      = (⟨"bucket-x", "a/b.txt"⟩, false) :=
  (c5_resolve_amended "bucket-x" "a/b.txt" (by decide) (by decide)).2.2.1

/-- C6 (amended): a second `init` does clear and repopulate the Registry
(`fileKeyMap`) and LocalEntry (`filePathMap`) maps from the new map only and
installs a fresh staging folder and budget — but the `committedObjects` list
of the prior session persists through `init` (only `destroy` clears it), so
that piece of prior-session state leaks into the new session. -/
theorem c6_init_replaces_maps_but_keeps_committed
    (st : VfsState) (env : InitEnv) (m : List (String × S3Ref)) :
    (init st env m).1.fileKeyMap
        = m.map (fun q => (q.1,
            match q.2 with
            | .url s => (convertS3UrlToLocation s).1
            | .loc l => l))
    ∧ (init st env m).1.filePathMap = []
    ∧ (init st env m).1.tmpFolder = st.systemTmp ++ "/vs3fs-" ++ env.uuid
    ∧ (init st env m).1.tmpAvailableBytes = env.bsize * env.bavail
    ∧ (init st env m).1.committedObjects = st.committedObjects := by
  simp [init]

/-- C4: committing a key with no LocalEntry at all fails with the
`Cannot commit nonexistent file` error, and committing a key whose entry's
backing file does not exist (e.g. an un-materialized placeholder) fails with
the `Local file … not found` error — these are the code's two
`LocalFileNotFound` failures; in both cases the promise rejects (no silent
no-op) and no PUT request is ever issued. -/
theorem c4_commit_missing_file_fails_without_put
    (st : VfsState) (key : String) (cenv : CommitEnv) (opts : CommitOptions) :
    (lookupKey st.filePathMap key = none →
      (commit st cenv key opts).out
          = .err (.vfsError
              ("[VirtualS3FileSystem] Cannot commit nonexistent file \""
                ++ key ++ "\"") none)
        ∧ ∀ b k2, Event.putReq b k2 ∉ (commit st cenv key opts).events)
    ∧ (∀ entry sysMsg, lookupKey st.filePathMap key = some entry →
        cenv.stream = .enoent sysMsg →
        (commit st cenv key opts).out
            = .err (.vfsError
                ("[VirtualS3FileSystem] Local file \"" ++ entry.path
                  ++ "\" not found") (some sysMsg))
          ∧ ∀ b k2, Event.putReq b k2 ∉ (commit st cenv key opts).events) := by
  constructor
  · intro he
    refine ⟨by simp [commit, he, throwErr, destroy, ← String.append_assoc], ?_⟩
    intro b k2
    rcases eq_or_ne st.tmpFolder "" with h0 | h0 <;>
      simp [commit, he, throwErr, destroy, checkInitEvents, watchersOf, h0,
        List.mem_append, List.mem_map, List.mem_filterMap]
  · intro entry sysMsg he hs
    refine ⟨by simp [commit, he, hs, throwErr, destroy, ← String.append_assoc], ?_⟩
    intro b k2
    rcases eq_or_ne st.tmpFolder "" with h0 | h0 <;>
      simp [commit, he, hs, throwErr, destroy, checkInitEvents, watchersOf,
        h0, List.mem_append, List.mem_map, List.mem_filterMap]

/-- C4 witness: on the initialized fixture `stA` (key `a` registered, never
downloaded) the commit rejects with the nonexistent-file error and issues no
PUT. -/
theorem c4_commit_missing_file_witness :
    (commit stA ⟨.ready, .ok ()⟩ "a" defaultCommitOptions).out
        = .err (.vfsError
            "[VirtualS3FileSystem] Cannot commit nonexistent file \"a\"" none)
      ∧ ∀ b k2,
        Event.putReq b k2 ∉ (commit stA ⟨.ready, .ok ()⟩ "a" defaultCommitOptions).events :=
  (c4_commit_missing_file_fails_without_put stA "a" ⟨.ready, .ok ()⟩
      defaultCommitOptions).1 (by decide)

/-- C10: when the HEAD response reports no `ContentLength` (absent or `0`),
`sizeInBytes` collapses to `0` via `ContentLength || 0`, so the quota check
`0 > tmpAvailableBytes` passes whatever the remaining budget is, the download
proceeds (a GET is issued and the path is returned), and the budget is
decremented by `0`, i.e. left unchanged. -/
theorem c10_missing_content_length_treated_as_zero
    (st : VfsState) (env : GetPathEnv) (key : String) (loc : S3Location)
    (ct mt : Option String)
    (hinit : st.tmpFolder ≠ "")
    (hreg : lookupKey st.fileKeyMap key = some loc)
    (hcold : lookupKey st.filePathMap key = none)
    (hhead : env.head = .ok ⟨none, ct⟩ ∨ env.head = .ok ⟨some 0, ct⟩)
    (hget : env.get = .ok mt)
    (hbody : env.bodyPresent = true)
    (htr : env.transfer = .ok ()) :
    (getPath st env key).out
        = .ok (st.tmpFolder ++ "/" ++ env.uuid ++ extOf loc.key)
    ∧ (getPath st env key).st.tmpAvailableBytes = st.tmpAvailableBytes
    ∧ Event.getReq loc ∈ (getPath st env key).events := by
  obtain ⟨u, hd, gt, bp, tr⟩ := env
  simp only at hget hbody htr
  rcases hhead with hh | hh <;> simp only at hh <;> subst hh <;>
    subst hget <;> subst hbody <;> subst htr <;>
    simp [getPath, hreg, hcold, checkInitEvents, hinit, Option.getD]

/-- C10 witness: with a ZERO-byte budget (`stZ`) and a HEAD response carrying
no `ContentLength`, `getPath` still succeeds and leaves the budget at 0. -/
theorem c10_missing_content_length_witness :
    (getPath stZ envNoLen "a").out
        = .ok (stZ.tmpFolder ++ "/" ++ envNoLen.uuid ++ extOf "a.txt")
      ∧ (getPath stZ envNoLen "a").st.tmpAvailableBytes
          = stZ.tmpAvailableBytes
      ∧ Event.getReq ⟨"bkt", "a.txt"⟩ ∈ (getPath stZ envNoLen "a").events :=
  c10_missing_content_length_treated_as_zero stZ envNoLen "a" ⟨"bkt", "a.txt"⟩
    (some "text/plain") (some "text/plain") (by decide) (by decide)
    (by decide) (Or.inl rfl) rfl rfl rfl

/-- Reading any key from the empty map yields nothing. -/
theorem Vfs.lookupKey_nil {α : Type} (k : String) :
    lookupKey ([] : List (String × α)) k = none := rfl

/-- C2: for a registered key with no LocalEntry yet, a successful
`getPath` followed by a second `getPath` (no intervening `delete`) returns
the same local path both times; the download happens exactly once — the
first call's trace has exactly one HEAD and one GET, and the second call
issues no events at all (pure fast path). -/
theorem c2_idempotent_materialization
    (st : VfsState) (env env2 : GetPathEnv) (key : String) (loc : S3Location)
    (p : String) (st2 : VfsState) (evs : List Event)
    (hinit : st.tmpFolder ≠ "")
    (hreg : lookupKey st.fileKeyMap key = some loc)
    (hcold : lookupKey st.filePathMap key = none)
    (h1 : getPath st env key = ⟨.ok p, st2, evs⟩) :
    getPath st2 env2 key = ⟨.ok p, st2, []⟩
    ∧ evs.count (Event.headReq loc) = 1
    ∧ evs.count (Event.getReq loc) = 1 := by
  obtain ⟨u, hd, gt, bp, tr⟩ := env
  cases hd with
  | error name =>
    simp [getPath, hreg, hcold, checkInitEvents, hinit, getS3Url, throwErr,
      destroy] at h1
  | ok resp =>
    by_cases hq : resp.contentLength.getD 0 > st.tmpAvailableBytes
    · simp [getPath, hreg, hcold, checkInitEvents, hinit, getS3Url, throwErr,
        destroy, hq, Vfs.lookupKey_nil] at h1
    · cases gt with
      | error name =>
        simp [getPath, hreg, hcold, checkInitEvents, hinit, getS3Url,
          throwErr, destroy, hq] at h1
      | ok ct =>
        cases bp with
        | false =>
          simp [getPath, hreg, hcold, checkInitEvents, hinit, hq] at h1
        | true =>
          cases tr with
          | error m =>
            simp [getPath, hreg, hcold, checkInitEvents, hinit, hq] at h1
          | ok _ =>
            simp only [getPath, hreg, hcold, checkInitEvents,
              if_neg hinit, hq, if_false, if_true, List.nil_append,
              Res.mk.injEq, Outcome.ok.injEq] at h1
            obtain ⟨hout, hst, hevs⟩ := h1
            subst hout
            subst hst
            subst hevs
            refine ⟨?_, ?_, ?_⟩
            · simp [getPath, hreg, Vfs.lookupKey_setKey_self, checkInitEvents,
                hinit]
            · simp [List.count_cons]
            · simp [List.count_cons]

/-- C2 witness: the theorem applied to the `stA`/`envOk3` fixture — the
second call returns the same path `/tmp/vs3fs-u0/u1.txt` with no events, and
the first call's trace holds exactly one HEAD and one GET. -/
theorem c2_idempotent_materialization_witness :
    getPath stM envOk3 "a" = ⟨.ok "/tmp/vs3fs-u0/u1.txt", stM, []⟩
    ∧ ([Event.headReq ⟨"bkt", "a.txt"⟩, Event.getReq ⟨"bkt", "a.txt"⟩,
        Event.fileWrite "/tmp/vs3fs-u0/u1.txt",
        Event.watchStart "/tmp/vs3fs-u0/u1.txt"].count
          (Event.headReq ⟨"bkt", "a.txt"⟩) = 1)
    ∧ ([Event.headReq ⟨"bkt", "a.txt"⟩, Event.getReq ⟨"bkt", "a.txt"⟩,
        Event.fileWrite "/tmp/vs3fs-u0/u1.txt",
        Event.watchStart "/tmp/vs3fs-u0/u1.txt"].count
          (Event.getReq ⟨"bkt", "a.txt"⟩) = 1) :=
  c2_idempotent_materialization stA envOk3 envOk3 "a" ⟨"bkt", "a.txt"⟩
    "/tmp/vs3fs-u0/u1.txt" stM
    [Event.headReq ⟨"bkt", "a.txt"⟩, Event.getReq ⟨"bkt", "a.txt"⟩,
      Event.fileWrite "/tmp/vs3fs-u0/u1.txt",
      Event.watchStart "/tmp/vs3fs-u0/u1.txt"]
    (by decide) (by decide) (by decide) (by decide)

/-- Any successful `getPath` that actually downloaded (no prior LocalEntry)
leaves the budget decremented by exactly the HEAD-reported size. -/
theorem getPath_decrements_by_head_size
    (st : VfsState) (env : GetPathEnv) (key p : String) (st2 : VfsState)
    (evs : List Event) (resp : HeadResponse)
    (hcold : lookupKey st.filePathMap key = none)
    (hhead : env.head = .ok resp)
    (h1 : getPath st env key = ⟨.ok p, st2, evs⟩) :
    st2.tmpAvailableBytes = st.tmpAvailableBytes - resp.contentLength.getD 0 := by
  obtain ⟨u, hd, gt, bp, tr⟩ := env
  simp only at hhead
  subst hhead
  cases h1k : lookupKey st.fileKeyMap key with
  | none => simp [getPath, h1k, throwErr, destroy] at h1
  | some loc =>
    by_cases hq : resp.contentLength.getD 0 > st.tmpAvailableBytes
    · simp [getPath, h1k, hcold, throwErr, destroy, getS3Url,
        Vfs.lookupKey_nil, hq] at h1
    · cases gt with
      | error name =>
        simp [getPath, h1k, hcold, throwErr, destroy, getS3Url, hq] at h1
      | ok ct =>
        cases bp with
        | false => simp [getPath, h1k, hcold, hq] at h1
        | true =>
          cases tr with
          | error m => simp [getPath, h1k, hcold, hq] at h1
          | ok _ =>
            simp only [getPath, h1k, hcold, hq, if_false, if_true,
              Res.mk.injEq, Outcome.ok.injEq] at h1
            obtain ⟨-, hst, -⟩ := h1
            subst hst
            simp

set_option maxHeartbeats 1600000 in
/-- `getPath` never issues a free-space query (only `init` does). -/
theorem getPath_no_statfs (st : VfsState) (env : GetPathEnv) (key pth : String) :
    Event.statfsQuery pth ∉ (getPath st env key).events := by
  obtain ⟨u, hd, gt, bp, tr⟩ := env
  rcases eq_or_ne st.tmpFolder "" with h0 | h0 <;>
  rcases h1 : lookupKey st.fileKeyMap key with _ | loc <;>
  rcases h2 : lookupKey st.filePathMap key with _ | entry <;>
  cases hd <;> cases gt <;> cases bp <;> cases tr <;>
    simp only [getPath, h0, h1, h2, checkInitEvents, throwErr, destroy,
      getS3Url, Vfs.lookupKey_nil] <;>
    split_ifs <;>
    simp [watchersOf, List.mem_append, List.mem_map, List.mem_filterMap]

/-- `commit` never issues a free-space query. -/
theorem commit_no_statfs (st : VfsState) (cenv : CommitEnv) (key pth : String)
    (opts : CommitOptions) :
    Event.statfsQuery pth ∉ (commit st cenv key opts).events := by
  obtain ⟨str, put⟩ := cenv
  rcases eq_or_ne st.tmpFolder "" with h0 | h0 <;>
  rcases h1 : lookupKey st.fileKeyMap key with _ | loc <;>
  rcases h2 : lookupKey st.filePathMap key with _ | entry <;>
  cases str <;> cases put <;>
    simp only [commit, h0, h1, h2, checkInitEvents, throwErr, destroy,
      getS3Url, Vfs.lookupKey_nil] <;>
    split_ifs <;>
    simp [watchersOf, List.mem_append, List.mem_map, List.mem_filterMap]

/-- `delete` never issues a free-space query. -/
theorem delete_no_statfs (st : VfsState) (key pth : String) :
    Event.statfsQuery pth ∉ (delete st key).events := by
  rcases h2 : lookupKey st.filePathMap key with _ | entry <;>
    simp [delete, h2]

/-- `destroy` never issues a free-space query. -/
theorem destroy_no_statfs (st : VfsState) (b : Bool) (pth : String) :
    Event.statfsQuery pth ∉ (destroy st b).2 := by
  cases b <;>
    simp [destroy, watchersOf, List.mem_append, List.mem_map,
      List.mem_filterMap]

/-- C9: `tmpAvailableBytes` is set by `init` to the statfs free-space
estimate `bsize * bavail` (the only free-space query in the system — no other
operation ever emits one), each successful cold download decrements it by
exactly the HEAD-reported byte size, and in the §8 scenario (budget
1,000,000, object size 9) a successful `getPath` leaves 999,991 bytes. -/
theorem c9_advisory_byte_counter
    (st : VfsState) (ienv : InitEnv) (m : List (String × S3Ref)) :
    ((init st ienv m).1.tmpAvailableBytes = ienv.bsize * ienv.bavail
      ∧ Event.statfsQuery st.systemTmp ∈ (init st ienv m).2)
    ∧ (∀ env key p st2 evs resp,
        lookupKey st.filePathMap key = none →
        env.head = .ok resp →
        getPath st env key = ⟨.ok p, st2, evs⟩ →
        st2.tmpAvailableBytes
          = st.tmpAvailableBytes - resp.contentLength.getD 0)
    ∧ (∀ env key pth, Event.statfsQuery pth ∉ (getPath st env key).events)
    ∧ (∀ cenv key opts pth,
        Event.statfsQuery pth ∉ (commit st cenv key opts).events)
    ∧ (∀ key pth, Event.statfsQuery pth ∉ (delete st key).events)
    ∧ (∀ b pth, Event.statfsQuery pth ∉ (destroy st b).2)
    ∧ (getPath stB env9 "a").st.tmpAvailableBytes = 1000000 - 9 := by
  refine ⟨⟨by simp [init], by simp [init]⟩,
    fun env key p st2 evs resp hcold hh h1 =>
      getPath_decrements_by_head_size st env key p st2 evs resp hcold hh h1,
    fun env key pth => getPath_no_statfs st env key pth,
    fun cenv key opts pth => commit_no_statfs st cenv key pth opts,
    fun key pth => delete_no_statfs st key pth,
    fun b pth => destroy_no_statfs st b pth,
    by decide⟩

/-- C9 witness: the decrement clause applied at the §8 scenario — a 9-byte
object downloaded against a 1,000,000-byte budget leaves exactly
1,000,000 − 9. -/
theorem c9_advisory_byte_counter_witness :
    (getPath stB env9 "a").st.tmpAvailableBytes
      = stB.tmpAvailableBytes - 9 :=
  (c9_advisory_byte_counter stB ⟨"u0", 4096, 1000⟩ []).2.1 env9 "a"
    "/tmp/vs3fs-u0/u1.txt" (getPath stB env9 "a").st
    (getPath stB env9 "a").events ⟨some 9, some "text/plain"⟩
    (by decide) rfl (by decide)

/-- C3 (amended): failures of the HEAD metadata fetch, of the quota check,
of the GET request, of a commit's local read (missing backing file), and of
the remote PUT all perform full session teardown (maps cleared, staging dir
removed, watchers closed) before the error is raised to the caller — but a
failure while streaming the GET body to disk does NOT: it rejects with the
raw stream error, leaving the Registry/LocalEntry state and the staging
directory fully in place. -/
theorem c3_teardown_amended
    (st : VfsState) (key : String) (loc : S3Location)
    (hinit : st.tmpFolder ≠ "")
    (hreg : lookupKey st.fileKeyMap key = some loc) :
    (∀ (env : GetPathEnv) name, lookupKey st.filePathMap key = none →
      env.head = .error name →
      (∃ e, (getPath st env key).out = .err e)
        ∧ tornDown st (getPath st env key))
    ∧ (∀ (env : GetPathEnv) resp, lookupKey st.filePathMap key = none →
        env.head = .ok resp →
        resp.contentLength.getD 0 > st.tmpAvailableBytes →
        (∃ e, (getPath st env key).out = .err e)
          ∧ tornDown st (getPath st env key))
    ∧ (∀ (env : GetPathEnv) resp name, lookupKey st.filePathMap key = none →
        env.head = .ok resp →
        ¬ resp.contentLength.getD 0 > st.tmpAvailableBytes →
        env.get = .error name →
        (∃ e, (getPath st env key).out = .err e)
          ∧ tornDown st (getPath st env key))
    ∧ (∀ (cenv : CommitEnv) sysMsg entry opts,
        lookupKey st.filePathMap key = some entry →
        cenv.stream = .enoent sysMsg →
        (∃ e, (commit st cenv key opts).out = .err e)
          ∧ tornDown st (commit st cenv key opts))
    ∧ (∀ (cenv : CommitEnv) name entry opts,
        lookupKey st.filePathMap key = some entry →
        cenv.stream = .ready → cenv.put = .error name →
        (∃ e, (commit st cenv key opts).out = .err e)
          ∧ tornDown st (commit st cenv key opts))
    ∧ (∀ (env : GetPathEnv) resp ct m, lookupKey st.filePathMap key = none →
        env.head = .ok resp →
        ¬ resp.contentLength.getD 0 > st.tmpAvailableBytes →
        env.get = .ok ct → env.bodyPresent = true →
        env.transfer = .error m →
        (getPath st env key).out = .err (.streamError m)
          ∧ (getPath st env key).st = st
          ∧ Event.rmDir st.tmpFolder ∉ (getPath st env key).events) := by
  refine ⟨?_, ?_, ?_, ?_, ?_, ?_⟩
  · intro env name hcold hh
    obtain ⟨u, hd, gt, bp, tr⟩ := env
    simp only at hh
    subst hh
    simp [getPath, hreg, hcold, checkInitEvents, hinit, getS3Url, throwErr,
      destroy, tornDown, watchersOf, List.mem_append, List.mem_map,
      List.mem_filterMap]
  · intro env resp hcold hh hq
    obtain ⟨u, hd, gt, bp, tr⟩ := env
    simp only at hh
    subst hh
    simp [getPath, hreg, hcold, checkInitEvents, hinit, getS3Url, throwErr,
      destroy, tornDown, watchersOf, hq, Vfs.lookupKey_nil, List.mem_append,
      List.mem_map, List.mem_filterMap]
  · intro env resp name hcold hh hq hg
    obtain ⟨u, hd, gt, bp, tr⟩ := env
    simp only at hh hg
    subst hh
    subst hg
    simp [getPath, hreg, hcold, checkInitEvents, hinit, getS3Url, throwErr,
      destroy, tornDown, watchersOf, hq, List.mem_append, List.mem_map,
      List.mem_filterMap]
  · intro cenv sysMsg entry opts hentry hs
    obtain ⟨str, put⟩ := cenv
    simp only at hs
    subst hs
    simp [commit, hentry, checkInitEvents, hinit, throwErr, destroy,
      tornDown, watchersOf, List.mem_append, List.mem_map, List.mem_filterMap]
  · intro cenv name entry opts hentry hs hp
    obtain ⟨str, put⟩ := cenv
    simp only at hs hp
    subst hs
    subst hp
    simp [commit, hentry, hreg, checkInitEvents, hinit, throwErr, destroy,
      tornDown, watchersOf, List.mem_append, List.mem_map, List.mem_filterMap]
  · intro env resp ct m hcold hh hq hg hb ht
    obtain ⟨u, hd, gt, bp, tr⟩ := env
    simp only at hh hg hb ht
    subst hh
    subst hg
    subst hb
    subst ht
    refine ⟨?_, ?_, ?_⟩ <;>
      simp [getPath, hreg, hcold, checkInitEvents, hinit, hq]

/-- C3 witness: the amended theorem's HEAD-failure clause applied to the
`stA` fixture and `envHeadFail`. -/
theorem c3_teardown_amended_witness :
    (∃ e, (getPath stA envHeadFail "a").out = .err e)
      ∧ tornDown stA (getPath stA envHeadFail "a") :=
  (c3_teardown_amended stA "a" ⟨"bkt", "a.txt"⟩ (by decide) (by decide)).1
    envHeadFail "NetworkingError" (by decide) rfl
